import Mathlib

/-!
# Typed value providers with script bridging (package `provider`)

A shallow embedding of `provider/config.go`, `provider/go.go` and
`provider/javascript.go`.

* Go functions with side effects become state-passing functions over a world
  type `σ` (the state of the script engines and of every backend).
* A Go `error` result is an `Option Error` (`none` is the nil error); a func
  value that may be nil is an `Option` of a function.
* The process-wide `registry` variable is passed explicitly (`Globals`).
* The script engines (yaegi, otto), `reflect` and `fmt` are libraries outside
  the package; what the package relies on is stated next to each definition.
-/

set_option linter.dupNamespace false

namespace provider

/-! ## Errors and scalar values -/

/-- Go error values: `errorf` is an error carrying a message only (made by
`fmt.Errorf` without `%w`, or handed over by a backend or an engine), `wrap` is
`fmt.Errorf("%s: %w", name, inner)`. -/
inductive Error where
  | errorf (msg : String)
  | wrap (name : String) (inner : Error)
deriving DecidableEq, Repr

/-- The message of an error (Go method `Error()`). -/
def Error.Error : Error → String
  | .errorf msg => msg
  | .wrap name inner => name ++ ": " ++ inner.Error

/-- A `float64`, kept as its bit pattern: no floating point arithmetic is done
by the package itself. -/
structure Float64 where
  bits : Nat
deriving DecidableEq, Repr

/-- The zero value of `float64`. -/
def Float64.zero : Float64 := ⟨0⟩

/-- A Go `any` holding one of the four scalar types the accessors exchange. -/
inductive Any where
  | bool (b : Bool)
  | int64 (i : Int)
  | float64 (f : Float64)
  | string (s : String)
deriving DecidableEq, Repr

/-- What the package needs from `fmt` and from numeric conversion on float64:
the `%v` rendering of a float64 and the int/float conversions of `reflect`. -/
structure Runtime where
  fmtFloat : Float64 → String
  cvtIntFloat : Int → Float64
  cvtFloatInt : Float64 → Int

/-- Rendering by `%v` of a scalar: `fmt.Sprintf("%v", val)`. -/
def fmtV (rt : Runtime) : Any → String
  | .bool true => "true"
  | .bool false => "false"
  | .int64 i => toString i
  | .float64 f => rt.fmtFloat f
  | .string s => s

/-! ## Provider types (config.go 7-35) -/

/-- The func type `func() (int64, error)`. -/
abbrev IntGetterFunc (σ : Type) := σ → (Int × Option Error) × σ
/-- The func type `func() (string, error)`. -/
abbrev StringGetterFunc (σ : Type) := σ → (String × Option Error) × σ
/-- The func type `func() (float64, error)`. -/
abbrev FloatGetterFunc (σ : Type) := σ → (Float64 × Option Error) × σ
/-- The func type `func() (bool, error)`. -/
abbrev BoolGetterFunc (σ : Type) := σ → (Bool × Option Error) × σ
/-- The func type `func(int64) error`. -/
abbrev IntSetterFunc (σ : Type) := Int → σ → Option Error × σ
/-- The func type `func(string) error`. -/
abbrev StringSetterFunc (σ : Type) := String → σ → Option Error × σ
/-- The func type `func(float64) error`. -/
abbrev FloatSetterFunc (σ : Type) := Float64 → σ → Option Error × σ
/-- The func type `func(bool) error`. -/
abbrev BoolSetterFunc (σ : Type) := Bool → σ → Option Error × σ

/-- A non-nil `Provider` interface value, described by the eight capability
interfaces its dynamic type implements. A field is `none` when the type
assertion to that interface fails; otherwise it holds the method, whose result
(a func value) may itself be nil. -/
structure Provider (σ : Type) where
  IntGetter : Option (Option (IntGetterFunc σ))
  StringGetter : Option (Option (StringGetterFunc σ))
  FloatGetter : Option (Option (FloatGetterFunc σ))
  BoolGetter : Option (Option (BoolGetterFunc σ))
  IntSetter : Option (String → Option (IntSetterFunc σ))
  StringSetter : Option (String → Option (StringSetterFunc σ))
  FloatSetter : Option (String → Option (FloatSetterFunc σ))
  BoolSetter : Option (String → Option (BoolSetterFunc σ))

/-- The `map[string]interface{}` fragment handed to a factory; it is only
forwarded, never inspected, by this package. -/
abbrev Other := List (String × String)

/-- A registered factory `func(map[string]interface{}) (Provider, error)`; the
returned interface value may be nil. -/
abbrev Factory (σ : Type) := Other → Option (Provider σ) × Option Error

/-- The map `providerRegistry`: `m name` is `none` when `name` is not a key. -/
structure providerRegistry (σ : Type) where
  m : String → Option (Factory σ)

/-- Outcome of `Add`: the panic value when the call panicked, and the content
of the map when the call ended. -/
structure AddOutcome (σ : Type) where
  panicked : Option String
  registry : providerRegistry σ

/-- Source: `providerRegistry.Add` (config.go 39-44). -/
def providerRegistry.Add {σ : Type} (r : providerRegistry σ) (name : String)
    (factory : Factory σ) : AddOutcome σ :=
  match r.m name with
  | some _ => ⟨some ("cannot register duplicate plugin type: " ++ name), r⟩
  | none => ⟨none, ⟨fun k => if k = name then some factory else r.m k⟩⟩

/-- Source: `providerRegistry.Get` (config.go 46-52). -/
def providerRegistry.Get {σ : Type} (r : providerRegistry σ) (name : String) :
    Except Error (Factory σ) :=
  match r.m name with
  | none => .error (.errorf ("invalid plugin source: " ++ name))
  | some factory => .ok factory

/-- Source: `Config` (config.go 57-60). -/
structure Config where
  Source : String
  Other : Other
deriving DecidableEq, Repr

/-- The package-level state the resolvers read: the variable `registry`, and
the function `NewOpenWBStatusProviderFromConfig`, which `NewStringGetterFromConfig`
calls for the two legacy source names and whose body is in another file. It is
taken as a parameter: from the `other` fragment it yields either a string getter
or an error. -/
structure Globals (σ : Type) where
  registry : providerRegistry σ
  NewOpenWBStatusProviderFromConfig : Other → Except Error (StringGetterFunc σ)

/-- The statement `if err == nil && res == nil { err = fmt.Errorf(...) }` that
ends every resolver, followed by `return`. -/
def finish {α : Type} (Source : String) (res : Option α) (err : Option Error) :
    Option α × Option Error :=
  match err, res with
  | none, none => (res, some (.errorf ("invalid plugin source: " ++ Source)))
  | _, _ => (res, err)

/-- Source: `NewIntGetterFromConfig` (config.go 63-79). -/
def NewIntGetterFromConfig {σ : Type} (g : Globals σ) (config : Config) :
    Option (IntGetterFunc σ) × Option Error :=
  match g.registry.Get config.Source with
  | .ok factory =>
    match factory config.Other with
    | (provider, err) =>
      match provider.bind (fun prov => prov.IntGetter) with
      | some getter => finish config.Source getter err
      | none => finish config.Source none err
  | .error err => finish config.Source none (some err)

/-- Source: `NewFloatGetterFromConfig` (config.go 82-98). -/
def NewFloatGetterFromConfig {σ : Type} (g : Globals σ) (config : Config) :
    Option (FloatGetterFunc σ) × Option Error :=
  match g.registry.Get config.Source with
  | .ok factory =>
    match factory config.Other with
    | (provider, err) =>
      match provider.bind (fun prov => prov.FloatGetter) with
      | some getter => finish config.Source getter err
      | none => finish config.Source none err
  | .error err => finish config.Source none (some err)

/-- Source: `NewStringGetterFromConfig` (config.go 101-124). -/
def NewStringGetterFromConfig {σ : Type} (g : Globals σ) (config : Config) :
    Option (StringGetterFunc σ) × Option Error :=
  if config.Source = "combined" ∨ config.Source = "openwb" then
    match g.NewOpenWBStatusProviderFromConfig config.Other with
    | .ok res => (some res, none)
    | .error err => (none, some err)
  else
    match g.registry.Get config.Source with
    | .ok factory =>
      match factory config.Other with
      | (provider, err) =>
        match provider.bind (fun prov => prov.StringGetter) with
        | some getter => finish config.Source getter err
        | none => finish config.Source none err
    | .error err => finish config.Source none (some err)

/-- Source: `NewBoolGetterFromConfig` (config.go 127-143). -/
def NewBoolGetterFromConfig {σ : Type} (g : Globals σ) (config : Config) :
    Option (BoolGetterFunc σ) × Option Error :=
  match g.registry.Get config.Source with
  | .ok factory =>
    match factory config.Other with
    | (provider, err) =>
      match provider.bind (fun prov => prov.BoolGetter) with
      | some getter => finish config.Source getter err
      | none => finish config.Source none err
  | .error err => finish config.Source none (some err)

/-- Source: `NewIntSetterFromConfig` (config.go 146-162). -/
def NewIntSetterFromConfig {σ : Type} (g : Globals σ) (param : String) (config : Config) :
    Option (IntSetterFunc σ) × Option Error :=
  match g.registry.Get config.Source with
  | .ok factory =>
    match factory config.Other with
    | (provider, err) =>
      match provider.bind (fun prov => prov.IntSetter) with
      | some setter => finish config.Source (setter param) err
      | none => finish config.Source none err
  | .error err => finish config.Source none (some err)

/-- Source: `NewFloatSetterFromConfig` (config.go 165-181). -/
def NewFloatSetterFromConfig {σ : Type} (g : Globals σ) (param : String) (config : Config) :
    Option (FloatSetterFunc σ) × Option Error :=
  match g.registry.Get config.Source with
  | .ok factory =>
    match factory config.Other with
    | (provider, err) =>
      match provider.bind (fun prov => prov.FloatSetter) with
      | some setter => finish config.Source (setter param) err
      | none => finish config.Source none err
  | .error err => finish config.Source none (some err)

/-- Source: `NewBoolSetterFromConfig` (config.go 184-200). -/
def NewBoolSetterFromConfig {σ : Type} (g : Globals σ) (param : String) (config : Config) :
    Option (BoolSetterFunc σ) × Option Error :=
  match g.registry.Get config.Source with
  | .ok factory =>
    match factory config.Other with
    | (provider, err) =>
      match provider.bind (fun prov => prov.BoolSetter) with
      | some setter => finish config.Source (setter param) err
      | none => finish config.Source none err
  | .error err => finish config.Source none (some err)

/-- Source: `NewStringSetterFromConfig` (config.go 203-219). -/
def NewStringSetterFromConfig {σ : Type} (g : Globals σ) (param : String) (config : Config) :
    Option (StringSetterFunc σ) × Option Error :=
  match g.registry.Get config.Source with
  | .ok factory =>
    match factory config.Other with
    | (provider, err) =>
      match provider.bind (fun prov => prov.StringSetter) with
      | some setter => finish config.Source (setter param) err
      | none => finish config.Source none err
  | .error err => finish config.Source none (some err)

/-! ## What the package uses of `reflect` and of the yaegi interpreter (go.go) -/

/-- The types the Go provider converts to: `reflect.TypeOf` of a bool, an int
(or int64), a float64 and a string. -/
inductive reflect.Kind where
  | Bool
  | Int
  | Float64
  | String
deriving DecidableEq, Repr

/-- A `reflect.Value` returned by the interpreter: the results covered here are
the ones of the four scalar kinds. -/
inductive reflect.Value where
  | bool (b : Bool)
  | int (i : Int)
  | float64 (f : Float64)
  | string (s : String)
deriving DecidableEq, Repr

/-- Source: `v.CanConvert(typ)` for the scalar kinds, after the conversion rules of Go:
integers and floats convert to each other, an integer converts to a string (the
text of that code point), a bool only to bool and a string only to string. -/
def reflect.Value.CanConvert : reflect.Value → reflect.Kind → Bool
  | .bool _, .Bool => true
  | .int _, .Int => true
  | .int _, .Float64 => true
  | .int _, .String => true
  | .float64 _, .Int => true
  | .float64 _, .Float64 => true
  | .string _, .String => true
  | _, _ => false

/-- Go conversion `string(rune(i))`: the text of code point `i`, or U+FFFD when
`i` is not a valid code point. -/
def cvtIntString (i : Int) : String :=
  if 0 ≤ i ∧ (i.toNat < 0xd800 ∨ (0xdfff < i.toNat ∧ i.toNat < 0x110000)) then
    String.singleton (Char.ofNat i.toNat)
  else String.singleton (Char.ofNat 0xfffd)

/-- Source: `v.Convert(typ).Bool()` for `typ` the bool type; `none` when
`v.CanConvert(typ)` is false. -/
def reflect.Value.convertBool : reflect.Value → Option Bool
  | .bool b => some b
  | _ => none

/-- Source: `v.Convert(typ).Int()` for `typ` an integer type; `none` when
`v.CanConvert(typ)` is false. -/
def reflect.Value.convertInt (rt : Runtime) : reflect.Value → Option Int
  | .int i => some i
  | .float64 f => some (rt.cvtFloatInt f)
  | _ => none

/-- Source: `v.Convert(typ).Float()` for `typ` the float64 type; `none` when
`v.CanConvert(typ)` is false. -/
def reflect.Value.convertFloat (rt : Runtime) : reflect.Value → Option Float64
  | .int i => some (rt.cvtIntFloat i)
  | .float64 f => some f
  | _ => none

/-- Source: `v.Convert(typ).String()` for `typ` the string type; `none` when
`v.CanConvert(typ)` is false. -/
def reflect.Value.convertString : reflect.Value → Option String
  | .string s => some s
  | .int i => some (cvtIntString i)
  | _ => none

/-- Rendering of a `reflect.Value` by `%v`: the value it holds. -/
def fmtValueV (rt : Runtime) : reflect.Value → String
  | .bool b => fmtV rt (.bool b)
  | .int i => fmtV rt (.int64 i)
  | .float64 f => fmtV rt (.float64 f)
  | .string s => s

/-- Rendering of a `reflect.Value` by `%s`: a string as it is, any other kind
as a bad-verb note. -/
def fmtValueS (rt : Runtime) : reflect.Value → String
  | .bool b => "%!s(bool=" ++ fmtV rt (.bool b) ++ ")"
  | .int i => "%!s(int=" ++ toString i ++ ")"
  | .float64 f => "%!s(float64=" ++ rt.fmtFloat f ++ ")"
  | .string s => s

/-- The yaegi interpreter behind `p.vm`: `Eval(src)` returns a value or an
error and may change the engine state, which is part of the world. -/
structure Interpreter (σ : Type) where
  Eval : String → σ → Except Error reflect.Value × σ

/-- Source: `TransformationConfig`, as declared in the comment of go.go 20-23; the
field `Type` is written `Typ`. -/
structure TransformationConfig where
  Name : String
  Typ : String
  Config : Config
deriving DecidableEq, Repr

/-- The struct `Go` (go.go 13-18); a nil slice is `none`. -/
structure Go (σ : Type) where
  vm : Interpreter σ
  script : String
  read : Option (List TransformationConfig)
  write : Option (List TransformationConfig)

/-- The error that stands for a call of a nil func value. A resolver never
returns a nil accessor with a nil error (`finish`), so no caller below reaches
the branches that use it. -/
def nilFuncCall : Error :=
  .errorf "runtime error: invalid memory address or nil pointer dereference"

/-- Source: `transformSetterGo` (go.go 238-296). -/
def transformSetterGo {σ : Type} (g : Globals σ) (rt : Runtime) :
    List TransformationConfig → reflect.Value → σ → Option Error × σ
  | [], _, s => (none, s)
  | cc :: transforms, v, s =>
    let name := cc.Name
    if cc.Typ = "bool" then
      match NewBoolSetterFromConfig g name cc.Config with
      | (_, some err) => (some (.wrap name err), s)
      | (none, none) => (some nilFuncCall, s)
      | (some f, none) =>
        match (match v.convertBool with
          | some b => f b s
          | none => (some (.errorf ("not a int: " ++ fmtValueS rt v)), s)) with
        | (some err, s) => (some (.wrap name err), s)
        | (none, s) => transformSetterGo g rt transforms v s
    else if cc.Typ = "int" then
      match NewIntSetterFromConfig g name cc.Config with
      | (_, some err) => (some (.wrap name err), s)
      | (none, none) => (some nilFuncCall, s)
      | (some f, none) =>
        match (match v.convertInt rt with
          | some i => f i s
          | none => (some (.errorf ("not a int: " ++ fmtValueS rt v)), s)) with
        | (some err, s) => (some (.wrap name err), s)
        | (none, s) => transformSetterGo g rt transforms v s
    else if cc.Typ = "float" then
      match NewFloatSetterFromConfig g name cc.Config with
      | (_, some err) => (some (.wrap name err), s)
      | (none, none) => (some nilFuncCall, s)
      | (some f, none) =>
        match (match v.convertFloat rt with
          | some x => f x s
          | none => (some (.errorf ("not a int: " ++ fmtValueS rt v)), s)) with
        | (some err, s) => (some (.wrap name err), s)
        | (none, s) => transformSetterGo g rt transforms v s
    else
      match NewStringSetterFromConfig g name cc.Config with
      | (_, some err) => (some (.wrap name err), s)
      | (none, none) => (some nilFuncCall, s)
      | (some f, none) =>
        match (match v.convertString with
          | some x => f x s
          | none => (some (.errorf ("not a int: " ++ fmtValueS rt v)), s)) with
        | (some err, s) => (some (.wrap name err), s)
        | (none, s) => transformSetterGo g rt transforms v s

/-- Source: `Go.paramAndEval` (go.go 144-160). -/
def Go.paramAndEval {σ : Type} (g : Globals σ) (rt : Runtime) (p : Go σ) (param : String)
    (val : Any) (s : σ) : Option Error × σ :=
  match p.vm.Eval (param ++ " := " ++ fmtV rt val ++ ";") s with
  | (.error err, s) => (some err, s)
  | (.ok _, s) =>
    match p.vm.Eval ("param := " ++ param ++ ";") s with
    | (.error err, s) => (some err, s)
    | (.ok _, s) =>
      match p.vm.Eval ("val := " ++ fmtV rt val ++ ";") s with
      | (.error err, s) => (some err, s)
      | (.ok _, s) =>
        match p.vm.Eval p.script s with
        | (.error err, s) => (some err, s)
        | (.ok v, s) =>
          match p.write with
          | some write => transformSetterGo g rt write v s
          | none => (none, s)

/-- The first half of the loop body of `transformGetterGo` (go.go 192-230):
resolve the getter of the declared type and invoke it. The result is the value
for `val`, or the error the function returns with. -/
def transformGetterGo.fetch {σ : Type} (g : Globals σ) (cc : TransformationConfig) (s : σ) :
    Except Error Any × σ :=
  let name := cc.Name
  if cc.Typ = "bool" then
    match NewBoolGetterFromConfig g cc.Config with
    | (_, some err) => (.error (.wrap name err), s)
    | (none, none) => (.error nilFuncCall, s)
    | (some f, none) =>
      match f s with
      | ((_, some err), s) => (.error (.wrap name err), s)
      | ((val, none), s) => (.ok (.bool val), s)
  else if cc.Typ = "int" then
    match NewIntGetterFromConfig g cc.Config with
    | (_, some err) => (.error (.wrap name err), s)
    | (none, none) => (.error nilFuncCall, s)
    | (some f, none) =>
      match f s with
      | ((_, some err), s) => (.error (.wrap name err), s)
      | ((val, none), s) => (.ok (.int64 val), s)
  else if cc.Typ = "float" then
    match NewFloatGetterFromConfig g cc.Config with
    | (_, some err) => (.error (.wrap name err), s)
    | (none, none) => (.error nilFuncCall, s)
    | (some f, none) =>
      match f s with
      | ((_, some err), s) => (.error (.wrap name err), s)
      | ((val, none), s) => (.ok (.float64 val), s)
  else
    match NewStringGetterFromConfig g cc.Config with
    | (_, some err) => (.error (.wrap name err), s)
    | (none, none) => (.error nilFuncCall, s)
    | (some f, none) =>
      match f s with
      | ((_, some err), s) => (.error (.wrap name err), s)
      | ((val, none), s) => (.ok (.string val), s)

/-- The loop of `transformGetterGo` over the remaining transformations: the
fetch above, then `p.paramAndEval(name, val)` (go.go 231-234). -/
def transformGetterGo.loop {σ : Type} (g : Globals σ) (rt : Runtime) (p : Go σ) :
    List TransformationConfig → σ → Option Error × σ
  | [], s => (none, s)
  | cc :: rest, s =>
    match transformGetterGo.fetch g cc s with
    | (.error err, s) => (some err, s)
    | (.ok val, s) =>
      match Go.paramAndEval g rt p cc.Name val s with
      | (some err, s) => (some (.wrap cc.Name err), s)
      | (none, s) => transformGetterGo.loop g rt p rest s

/-- Source: `transformGetterGo` (go.go 190-237); ranging over a nil slice does nothing. -/
def transformGetterGo {σ : Type} (g : Globals σ) (rt : Runtime) (p : Go σ) (s : σ) :
    Option Error × σ :=
  transformGetterGo.loop g rt p (p.read.getD []) s

/-- Source: `Go.FloatGetter` (go.go 58-76): the returned closure. -/
def Go.FloatGetter {σ : Type} (g : Globals σ) (rt : Runtime) (p : Go σ) : FloatGetterFunc σ :=
  fun s =>
    match (match p.read with
      | some _ => transformGetterGo g rt p s
      | none => (none, s)) with
    | (some err, s) => ((Float64.zero, some err), s)
    | (none, s) =>
      match p.vm.Eval p.script s with
      | (.error err, s) => ((Float64.zero, some err), s)
      | (.ok v, s) =>
        match v.convertFloat rt with
        | some res => ((res, none), s)
        | none => ((Float64.zero, some (.errorf ("not a float: " ++ fmtValueV rt v))), s)

/-- Source: `Go.IntGetter` (go.go 79-99): the returned closure. -/
def Go.IntGetter {σ : Type} (g : Globals σ) (rt : Runtime) (p : Go σ) : IntGetterFunc σ :=
  fun s =>
    match (match p.read with
      | some _ => transformGetterGo g rt p s
      | none => (none, s)) with
    | (some err, s) => ((0, some err), s)
    | (none, s) =>
      match p.vm.Eval p.script s with
      | (.error err, s) => ((0, some err), s)
      | (.ok v, s) =>
        match v.convertInt rt with
        | some res => ((res, none), s)
        | none => ((0, some (.errorf ("not an int: " ++ fmtValueV rt v))), s)

/-- Source: `Go.StringGetter` (go.go 102-120): the returned closure. -/
def Go.StringGetter {σ : Type} (g : Globals σ) (rt : Runtime) (p : Go σ) : StringGetterFunc σ :=
  fun s =>
    match (match p.read with
      | some _ => transformGetterGo g rt p s
      | none => (none, s)) with
    | (some err, s) => (("", some err), s)
    | (none, s) =>
      match p.vm.Eval p.script s with
      | (.error err, s) => (("", some err), s)
      | (.ok v, s) =>
        match v.convertString with
        | some res => ((res, none), s)
        | none => (("", some (.errorf ("not a string: " ++ fmtValueV rt v))), s)

/-- Source: `Go.BoolGetter` (go.go 123-142): the returned closure. -/
def Go.BoolGetter {σ : Type} (g : Globals σ) (rt : Runtime) (p : Go σ) : BoolGetterFunc σ :=
  fun s =>
    match (match p.read with
      | some _ => transformGetterGo g rt p s
      | none => (none, s)) with
    | (some err, s) => ((false, some err), s)
    | (none, s) =>
      match p.vm.Eval p.script s with
      | (.error err, s) => ((false, some err), s)
      | (.ok v, s) =>
        match v.convertBool with
        | some res => ((res, none), s)
        | none => ((false, some (.errorf ("not a boolean: " ++ fmtValueV rt v))), s)

/-- Source: `Go.IntSetter` (go.go 163-167). -/
def Go.IntSetter {σ : Type} (g : Globals σ) (rt : Runtime) (p : Go σ) (param : String) :
    IntSetterFunc σ :=
  fun val => Go.paramAndEval g rt p param (.int64 val)

/-- Source: `Go.FloatSetter` (go.go 170-174). -/
def Go.FloatSetter {σ : Type} (g : Globals σ) (rt : Runtime) (p : Go σ) (param : String) :
    FloatSetterFunc σ :=
  fun val => Go.paramAndEval g rt p param (.float64 val)

/-- Source: `Go.StringSetter` (go.go 177-181). -/
def Go.StringSetter {σ : Type} (g : Globals σ) (rt : Runtime) (p : Go σ) (param : String) :
    StringSetterFunc σ :=
  fun val => Go.paramAndEval g rt p param (.string val)

/-- Source: `Go.BoolSetter` (go.go 184-188). -/
def Go.BoolSetter {σ : Type} (g : Globals σ) (rt : Runtime) (p : Go σ) (param : String) :
    BoolSetterFunc σ :=
  fun val => Go.paramAndEval g rt p param (.bool val)

/-! ## What the package uses of the otto engine (javascript.go) -/

/-- An `otto.Value`, described by the results of the methods the package calls
on it; the engine decides them. -/
structure otto.Value where
  IsBoolean : Bool
  IsNumber : Bool
  ToBoolean : Bool × Option Error
  ToFloat : Float64 × Option Error
  ToInteger : Int × Option Error
  ToString : String × Option Error
deriving DecidableEq, Repr

/-- The otto engine behind `p.vm`: `Set(name, value)` and `Eval(src)`; both may
change the engine state, which is part of the world. -/
structure otto.Otto (σ : Type) where
  Set : String → Any → σ → Option Error × σ
  Eval : String → σ → Except Error otto.Value × σ

/-- The struct `Javascript` (javascript.go 11-16); a nil pointer and a nil
slice are `none`. -/
structure Javascript (σ : Type) where
  vm : otto.Otto σ
  script : String
  set : Option Config
  get : Option (List Config)

/-- The loop of `getTransformed` from index `idx` on. The error of `f()` is
assigned to `err` and overwritten by the result of `p.vm.Set` before it is
read. -/
def getTransformed.loop {σ : Type} (g : Globals σ) (p : Javascript σ) :
    Nat → List Config → σ → Option Error × σ
  | _, [], s => (none, s)
  | idx, cc :: rest, s =>
    match NewStringGetterFromConfig g cc with
    | (_, some err) => (some (.wrap ("get[" ++ toString idx ++ "]") err), s)
    | (none, none) => (some nilFuncCall, s)
    | (some f, none) =>
      match f s with
      | ((val, _), s) =>
        match p.vm.Set ("get_" ++ toString idx) (.string val) s with
        | (some err, s) => (some (.wrap ("get[" ++ toString idx ++ "]") err), s)
        | (none, s) => getTransformed.loop g p (idx + 1) rest s

/-- Source: `getTransformed` (javascript.go 154-170). -/
def getTransformed {σ : Type} (g : Globals σ) (p : Javascript σ) (s : σ) : Option Error × σ :=
  match p.get with
  | some get => getTransformed.loop g p 0 get s
  | none => (none, s)

/-- Source: `setTransformed` (javascript.go 172-199): it has no result; every `err` in
it is local. It is only called with `p.set` non-nil. -/
def setTransformed {σ : Type} (g : Globals σ) (param : String) (p : Javascript σ)
    (v : otto.Value) (s : σ) : σ :=
  match p.set with
  | none => s
  | some set =>
    if v.IsBoolean then
      match NewBoolSetterFromConfig g param set with
      | (_, some _) => s
      | (none, none) => s
      | (some f, none) =>
        match v.ToBoolean with
        | (_, some _) => s
        | (b, none) => (f b s).2
    else if v.IsNumber then
      match NewFloatSetterFromConfig g param set with
      | (_, some _) => s
      | (none, none) => s
      | (some f, none) =>
        match v.ToFloat with
        | (_, some _) => s
        | (x, none) => (f x s).2
    else
      match NewStringSetterFromConfig g param set with
      | (_, some _) => s
      | (none, none) => s
      | (some f, none) =>
        match v.ToString with
        | (_, some _) => s
        | (x, none) => (f x s).2

/-- Source: `Javascript.FloatGetter` (javascript.go 51-62): the returned closure.
`v, err := p.vm.Eval(p.script)` declares a second `err` in the inner block;
`res, err = v.ToFloat()` assigns to the outer `res` and to that inner `err`;
the closure returns the outer `err`. -/
def Javascript.FloatGetter {σ : Type} (g : Globals σ) (p : Javascript σ) : FloatGetterFunc σ :=
  fun s =>
    match getTransformed g p s with
    | (some err, s) => ((Float64.zero, some err), s)
    | (none, s) =>
      match p.vm.Eval p.script s with
      | (.error _, s) => ((Float64.zero, none), s)
      | (.ok v, s) => ((v.ToFloat.1, none), s)

/-- Source: `Javascript.IntGetter` (javascript.go 65-77): the returned closure; the two
`err` variables are as in `FloatGetter`. -/
def Javascript.IntGetter {σ : Type} (g : Globals σ) (p : Javascript σ) : IntGetterFunc σ :=
  fun s =>
    match getTransformed g p s with
    | (some err, s) => ((0, some err), s)
    | (none, s) =>
      match p.vm.Eval p.script s with
      | (.error _, s) => ((0, none), s)
      | (.ok v, s) => ((v.ToInteger.1, none), s)

/-- Source: `Javascript.StringGetter` (javascript.go 80-92): the returned closure; the
two `err` variables are as in `FloatGetter`. -/
def Javascript.StringGetter {σ : Type} (g : Globals σ) (p : Javascript σ) : StringGetterFunc σ :=
  fun s =>
    match getTransformed g p s with
    | (some err, s) => (("", some err), s)
    | (none, s) =>
      match p.vm.Eval p.script s with
      | (.error _, s) => (("", none), s)
      | (.ok v, s) => ((v.ToString.1, none), s)

/-- Source: `Javascript.BoolGetter` (javascript.go 95-107): the returned closure; the
two `err` variables are as in `FloatGetter`. -/
def Javascript.BoolGetter {σ : Type} (g : Globals σ) (p : Javascript σ) : BoolGetterFunc σ :=
  fun s =>
    match getTransformed g p s with
    | (some err, s) => ((false, some err), s)
    | (none, s) =>
      match p.vm.Eval p.script s with
      | (.error _, s) => ((false, none), s)
      | (.ok v, s) => ((v.ToBoolean.1, none), s)

/-- Source: `Javascript.paramAndEval` (javascript.go 109-124). `v, err :=
p.vm.Eval(p.script)` declares a second `err` inside the last `if`; the function
returns the outer one, which is nil there. -/
def Javascript.paramAndEval {σ : Type} (g : Globals σ) (p : Javascript σ) (param : String)
    (val : Any) (s : σ) : Option Error × σ :=
  match p.vm.Set param val s with
  | (some err, s) => (some err, s)
  | (none, s) =>
    match p.vm.Set "param" (.string param) s with
    | (some err, s) => (some err, s)
    | (none, s) =>
      match p.vm.Set "val" val s with
      | (some err, s) => (some err, s)
      | (none, s) =>
        match p.vm.Eval p.script s with
        | (.error _, s) => (none, s)
        | (.ok v, s) =>
          match p.set with
          | some _ => (none, setTransformed g param p v s)
          | none => (none, s)

/-- Source: `Javascript.IntSetter` (javascript.go 127-131). -/
def Javascript.IntSetter {σ : Type} (g : Globals σ) (p : Javascript σ) (param : String) :
    IntSetterFunc σ :=
  fun val => Javascript.paramAndEval g p param (.int64 val)

/-- Source: `Javascript.FloatSetter` (javascript.go 134-138). The comment above
it in the source reads "FloatSetter sends int request"; the function takes a
float64 and hands it to `paramAndEval` unchanged. -/
def Javascript.FloatSetter {σ : Type} (g : Globals σ) (p : Javascript σ) (param : String) :
    FloatSetterFunc σ :=
  fun val => Javascript.paramAndEval g p param (.float64 val)

/-- Source: `Javascript.StringSetter` (javascript.go 141-145). -/
def Javascript.StringSetter {σ : Type} (g : Globals σ) (p : Javascript σ) (param : String) :
    StringSetterFunc σ :=
  fun val => Javascript.paramAndEval g p param (.string val)

/-- Source: `Javascript.BoolSetter` (javascript.go 148-152). -/
def Javascript.BoolSetter {σ : Type} (g : Globals σ) (p : Javascript σ) (param : String) :
    BoolSetterFunc σ :=
  fun val => Javascript.paramAndEval g p param (.bool val)

/-! ## A concrete world: engines and backends that record what is done to them -/

/-- What a recording engine or backend notes down. -/
inductive Event where
  | eval (src : String)
  | bind (name : String) (val : Any)
  | fetch (source : String)
  | sink (kind : String) (param : String) (val : Any)
deriving DecidableEq, Repr

/-- The recording world: the operations performed so far, oldest first. -/
abbrev Log := List Event

/-- A float64 rendering and conversions for the concrete examples. -/
def exRuntime : Runtime where
  fmtFloat := fun f => "float64#" ++ toString f.bits
  cvtIntFloat := fun i => ⟨i.toNat⟩
  cvtFloatInt := fun f => f.bits

/-- A recording yaegi interpreter: the program "boom" fails, "true" yields a
bool, "7" an int, "hello" a string, anything else the int 0. -/
def exInterp : Interpreter Log where
  Eval := fun src s =>
    (if src = "boom" then .error (.errorf "boom: eval failed")
     else if src = "true" then .ok (.bool true)
     else if src = "7" then .ok (.int 7)
     else if src = "hello" then .ok (.string "hello")
     else .ok (.int 0),
     s ++ [.eval src])

/-- The otto value `true`. -/
def exJsTrue : otto.Value where
  IsBoolean := true
  IsNumber := false
  ToBoolean := (true, none)
  ToFloat := (⟨1⟩, none)
  ToInteger := (1, none)
  ToString := ("true", none)

/-- An otto value (an object) for which every conversion fails. -/
def exJsObject : otto.Value where
  IsBoolean := false
  IsNumber := false
  ToBoolean := (false, some (.errorf "TypeError"))
  ToFloat := (⟨0⟩, some (.errorf "TypeError"))
  ToInteger := (0, some (.errorf "TypeError"))
  ToString := ("", some (.errorf "TypeError"))

/-- The otto value of the string "hello". -/
def exJsHello : otto.Value where
  IsBoolean := false
  IsNumber := false
  ToBoolean := (true, none)
  ToFloat := (⟨0⟩, none)
  ToInteger := (0, none)
  ToString := ("hello", none)

/-- A recording otto engine: the program "boom" fails, "true" yields the
boolean true, "obj" the object above, anything else the string "hello"; `Set`
always succeeds. -/
def exOtto : otto.Otto Log where
  Set := fun name val s => (none, s ++ [.bind name val])
  Eval := fun src s =>
    (if src = "boom" then .error (.errorf "boom: eval failed")
     else if src = "true" then .ok exJsTrue
     else if src = "obj" then .ok exJsObject
     else .ok exJsHello,
     s ++ [.eval src])

/-- A backend with the four getters, each recording the fetch. -/
def exSensor : Provider Log where
  IntGetter := some (some (fun s => ((42, none), s ++ [.fetch "sensor"])))
  StringGetter := some (some (fun s => (("on", none), s ++ [.fetch "sensor"])))
  FloatGetter := some (some (fun s => ((⟨42⟩, none), s ++ [.fetch "sensor"])))
  BoolGetter := some (some (fun s => ((true, none), s ++ [.fetch "sensor"])))
  IntSetter := none
  StringSetter := none
  FloatSetter := none
  BoolSetter := none

/-- A backend whose string getter resolves but fails when it is invoked. -/
def exBroken : Provider Log where
  IntGetter := none
  StringGetter := some (some (fun s => (("", some (.errorf "timeout")), s ++ [.fetch "broken"])))
  FloatGetter := none
  BoolGetter := none
  IntSetter := none
  StringSetter := none
  FloatSetter := none
  BoolSetter := none

/-- A backend with the four setters, each recording what it is given. -/
def exSink : Provider Log where
  IntGetter := none
  StringGetter := none
  FloatGetter := none
  BoolGetter := none
  IntSetter := some (fun param => some (fun val s => (none, s ++ [.sink "int" param (.int64 val)])))
  StringSetter :=
    some (fun param => some (fun val s => (none, s ++ [.sink "string" param (.string val)])))
  FloatSetter :=
    some (fun param => some (fun val s => (none, s ++ [.sink "float" param (.float64 val)])))
  BoolSetter := some (fun param => some (fun val s => (none, s ++ [.sink "bool" param (.bool val)])))

/-- A backend whose bool setter resolves but fails when it is invoked. -/
def exBrokenSink : Provider Log where
  IntGetter := none
  StringGetter := none
  FloatGetter := none
  BoolGetter := none
  IntSetter := none
  StringSetter := none
  FloatSetter := none
  BoolSetter :=
    some (fun param => some (fun val s =>
      (some (.errorf "write refused"), s ++ [.sink "bool" param (.bool val)])))

/-- A backend that implements `IntProvider` only. -/
def exIntOnly : Provider Log where
  IntGetter := some (some (fun s => ((1, none), s)))
  StringGetter := none
  FloatGetter := none
  BoolGetter := none
  IntSetter := none
  StringSetter := none
  FloatSetter := none
  BoolSetter := none

/-- A registry with the four backends above and a factory that fails. -/
def exRegistry : providerRegistry Log where
  m := fun name =>
    if name = "sensor" then some (fun _ => (some exSensor, none))
    else if name = "broken" then some (fun _ => (some exBroken, none))
    else if name = "sink" then some (fun _ => (some exSink, none))
    else if name = "brokensink" then some (fun _ => (some exBrokenSink, none))
    else if name = "intonly" then some (fun _ => (some exIntOnly, none))
    else if name = "badconfig" then some (fun _ => (none, some (.errorf "missing uri")))
    else none

/-- The example globals: the composite backend of the two legacy names yields
a getter for the status "A". -/
def exGlobals : Globals Log where
  registry := exRegistry
  NewOpenWBStatusProviderFromConfig := fun _ => .ok (fun s => (("A", none), s))

/-- An empty registry. -/
def exEmpty : providerRegistry Log where
  m := fun _ => none

/-- Globals with the empty registry and the same composite backend. -/
def exLegacyGlobals : Globals Log where
  registry := exEmpty
  NewOpenWBStatusProviderFromConfig := fun _ => .ok (fun s => (("A", none), s))

/-- A factory used for registration examples. -/
def exFactory : Factory Log := fun _ => (some exSensor, none)

/-- A Javascript provider without transformations whose program fails. -/
def exJsBoom : Javascript Log := ⟨exOtto, "boom", none, none⟩

/-- A Javascript provider without transformations whose program yields a value
that no conversion accepts. -/
def exJsObj : Javascript Log := ⟨exOtto, "obj", none, none⟩

/-- A Javascript provider whose `set` names a source that is not registered. -/
def exJsSetUnknown : Javascript Log := ⟨exOtto, "true", some ⟨"nosuch", []⟩, none⟩

/-- A Javascript provider whose `set` names the sink that refuses writes. -/
def exJsSetRefused : Javascript Log := ⟨exOtto, "true", some ⟨"brokensink", []⟩, none⟩

/-- A Javascript provider whose `set` names the recording sink. -/
def exJsSetSink : Javascript Log := ⟨exOtto, "true", some ⟨"sink", []⟩, none⟩

/-- A Javascript provider with one `get` entry whose getter fails when invoked. -/
def exJsGetBroken : Javascript Log := ⟨exOtto, "hello", none, some [⟨"broken", []⟩]⟩

/-- A Javascript provider with two `get` entries. -/
def exJsTwoReads : Javascript Log :=
  ⟨exOtto, "hello", some ⟨"sink", []⟩, some [⟨"sensor", []⟩, ⟨"sensor", []⟩]⟩

/-- A Go provider with two read-transformations and no write list. -/
def exGoTwoReads : Go Log :=
  ⟨exInterp, "7", some [⟨"a", "int", ⟨"sensor", []⟩⟩, ⟨"b", "string", ⟨"sensor", []⟩⟩], none⟩

/-- A Go provider with one read-transformation and one write-transformation. -/
def exGoReadWrite : Go Log :=
  ⟨exInterp, "7", some [⟨"a", "int", ⟨"sensor", []⟩⟩], some [⟨"x", "int", ⟨"sink", []⟩⟩]⟩

/-- A Go provider with two write-transformations, of declared types int and
string, whose program yields the int 7. -/
def exGoWrite : Go Log :=
  ⟨exInterp, "7", none, some [⟨"x", "int", ⟨"sink", []⟩⟩, ⟨"y", "string", ⟨"sink", []⟩⟩]⟩

/-- A write list of three transformations on the recording sink, with the
declared types int, bool and string. -/
def exWriteThree : List TransformationConfig :=
  [⟨"x", "int", ⟨"sink", []⟩⟩, ⟨"y", "bool", ⟨"sink", []⟩⟩, ⟨"z", "string", ⟨"sink", []⟩⟩]

/-- A write list whose first sink refuses the write and whose second sink is
the recording sink. -/
def exWriteRefused : List TransformationConfig :=
  [⟨"x", "bool", ⟨"brokensink", []⟩⟩, ⟨"y", "string", ⟨"sink", []⟩⟩]

/-- A Go provider without transformations whose program yields `true`. -/
def exGoTrue : Go Log := ⟨exInterp, "true", none, none⟩

/-- A Go provider with one read-transformation whose getter fails when invoked. -/
def exGoGetBroken : Go Log :=
  ⟨exInterp, "hello", some [⟨"a", "string", ⟨"broken", []⟩⟩], none⟩

/-! ## The resolution contract, in the words of the specification -/

/-- Capability gating as the specification words it, for one resolver: `cap` is
the outcome of the type assertion on the backend (`none` when the backend does
not have the capability, else the accessor its method returns, possibly nil),
`e` the error of the factory and `result` what the resolver returned.
The error is `e` when `e` is non-nil; with a nil `e`, a non-nil accessor is
returned with a nil error, and a missing capability gives a nil accessor with
the error "invalid plugin source: <Source>". -/
def CapabilityGated {α : Type} (Source : String) (cap : Option (Option α)) (e : Option Error)
    (result : Option α × Option Error) : Prop :=
  (∀ err, e = some err → result.2 = some err) ∧
  (e = none → ∀ acc, cap = some (some acc) → result = (some acc, none)) ∧
  (e = none → cap = none →
    result = (none, some (.errorf ("invalid plugin source: " ++ Source))))

/-! ## Registry and resolvers -/

theorem finish_err {α : Type} (Source : String) (res : Option α) (e : Error) :
    finish Source res (some e) = (res, some e) := by
  cases res <;> rfl

theorem finish_some {α : Type} (Source : String) (a : α) (err : Option Error) :
    finish Source (some a) err = (some a, err) := by
  cases err <;> rfl

theorem finish_none {α : Type} (Source : String) :
    finish Source (none : Option α) none
      = (none, some (.errorf ("invalid plugin source: " ++ Source))) := rfl

/-- A resolver never ends with a nil accessor and a nil error. -/
theorem finish_ne_nil {α : Type} (Source : String) (res : Option α) (err : Option Error) :
    finish Source res err ≠ (none, none) := by
  cases res <;> cases err <;> simp [finish]

theorem Get_of_not_key {σ : Type} (r : providerRegistry σ) (name : String)
    (h : r.m name = none) :
    r.Get name = .error (.errorf ("invalid plugin source: " ++ name)) := by
  simp [providerRegistry.Get, h]

theorem Get_of_key {σ : Type} (r : providerRegistry σ) (name : String) (factory : Factory σ)
    (h : r.m name = some factory) : r.Get name = .ok factory := by
  simp [providerRegistry.Get, h]

/-- What `finish` returns satisfies the gating contract for the capability it
was given. -/
theorem finish_gated {α : Type} (Source : String) (cap : Option (Option α)) (e : Option Error) :
    CapabilityGated Source cap e
      (match cap with
        | some acc => finish Source acc e
        | none => finish Source none e) := by
  refine ⟨?_, ?_, ?_⟩
  · intro err he
    subst he
    cases cap <;> simp [finish_err]
  · intro he acc hc
    subst he hc
    simp [finish_some]
  · intro he hc
    subst he hc
    simp [finish_none]

/-- C1 (as amended): when `Source` is not a key of the registry, `Get` fails
with "invalid plugin source: <Source>", the seven resolvers other than
`NewStringGetterFromConfig` return a nil accessor with that error, and so does
`NewStringGetterFromConfig` unless `Source` is "combined" or "openwb"; for these
two names it does not look at the registry and returns what
`NewOpenWBStatusProviderFromConfig` returns. -/
theorem unknown_source_error {σ : Type} (g : Globals σ) (param : String) (config : Config)
    (h : g.registry.m config.Source = none) :
    g.registry.Get config.Source
        = .error (.errorf ("invalid plugin source: " ++ config.Source)) ∧
    NewIntGetterFromConfig g config
        = (none, some (.errorf ("invalid plugin source: " ++ config.Source))) ∧
    NewFloatGetterFromConfig g config
        = (none, some (.errorf ("invalid plugin source: " ++ config.Source))) ∧
    NewBoolGetterFromConfig g config
        = (none, some (.errorf ("invalid plugin source: " ++ config.Source))) ∧
    NewIntSetterFromConfig g param config
        = (none, some (.errorf ("invalid plugin source: " ++ config.Source))) ∧
    NewFloatSetterFromConfig g param config
        = (none, some (.errorf ("invalid plugin source: " ++ config.Source))) ∧
    NewStringSetterFromConfig g param config
        = (none, some (.errorf ("invalid plugin source: " ++ config.Source))) ∧
    NewBoolSetterFromConfig g param config
        = (none, some (.errorf ("invalid plugin source: " ++ config.Source))) ∧
    (config.Source ≠ "combined" → config.Source ≠ "openwb" →
      NewStringGetterFromConfig g config
        = (none, some (.errorf ("invalid plugin source: " ++ config.Source)))) ∧
    (config.Source = "combined" ∨ config.Source = "openwb" →
      NewStringGetterFromConfig g config
        = match g.NewOpenWBStatusProviderFromConfig config.Other with
          | .ok res => (some res, none)
          | .error err => (none, some err)) := by
  have hg := Get_of_not_key g.registry config.Source h
  refine ⟨hg, ?_, ?_, ?_, ?_, ?_, ?_, ?_, ?_, ?_⟩
  · simp [NewIntGetterFromConfig, hg, finish_err]
  · simp [NewFloatGetterFromConfig, hg, finish_err]
  · simp [NewBoolGetterFromConfig, hg, finish_err]
  · simp [NewIntSetterFromConfig, hg, finish_err]
  · simp [NewFloatSetterFromConfig, hg, finish_err]
  · simp [NewStringSetterFromConfig, hg, finish_err]
  · simp [NewBoolSetterFromConfig, hg, finish_err]
  · intro h1 h2
    simp [NewStringGetterFromConfig, h1, h2, hg, finish_err]
  · intro h1
    simp [NewStringGetterFromConfig, h1]

/-- Witness of C1 (as amended): the source "nosuch" in the example registry. -/
theorem unknown_source_error_witness :
    NewFloatGetterFromConfig exGlobals ⟨"nosuch", []⟩
        = (none, some (.errorf "invalid plugin source: nosuch")) ∧
    NewStringGetterFromConfig exGlobals ⟨"nosuch", []⟩
        = (none, some (.errorf "invalid plugin source: nosuch")) :=
  ⟨(unknown_source_error exGlobals "p" ⟨"nosuch", []⟩ rfl).2.2.1,
   (unknown_source_error exGlobals "p" ⟨"nosuch", []⟩ rfl).2.2.2.2.2.2.2.2.1
     (by decide) (by decide)⟩

/-- C1 (as stated) fails: "combined" is not a key of the empty registry, and
`NewStringGetterFromConfig` returns a non-nil accessor and a nil error for it,
not the unknown-source error. -/
theorem unknown_source_counterexample :
    exLegacyGlobals.registry.m "combined" = none ∧
    (NewStringGetterFromConfig exLegacyGlobals ⟨"combined", []⟩).1.isSome = true ∧
    (NewStringGetterFromConfig exLegacyGlobals ⟨"combined", []⟩).2 = none ∧
    NewStringGetterFromConfig exLegacyGlobals ⟨"combined", []⟩
      ≠ (none, some (.errorf "invalid plugin source: combined")) := by
  refine ⟨rfl, rfl, rfl, ?_⟩
  intro h
  have h2 := congrArg Prod.snd h
  exact absurd h2 (by decide)

/-- C2: `Add(n, f)` panics exactly when `n` is already a key, and then the map
is unchanged; when `n` is not yet a key, afterwards `Get(n)` returns `f` with no
error and `Get(m)` returns what it returned before for every other name `m`. -/
theorem registry_add {σ : Type} (r : providerRegistry σ) (n : String) (f : Factory σ) :
    ((r.Add n f).panicked.isSome = true ↔ (r.m n).isSome = true) ∧
    ((r.m n).isSome = true → (r.Add n f).registry = r) ∧
    (r.m n = none →
      (r.Add n f).panicked = none ∧
      (r.Add n f).registry.Get n = .ok f ∧
      ∀ m, m ≠ n → (r.Add n f).registry.Get m = r.Get m) := by
  cases h : r.m n with
  | none =>
    refine ⟨by simp [providerRegistry.Add, h], by simp, ?_⟩
    intro _
    refine ⟨by simp [providerRegistry.Add, h], by simp [providerRegistry.Add, h, providerRegistry.Get], ?_⟩
    intro m hm
    simp [providerRegistry.Add, h, providerRegistry.Get, hm]
  | some f0 =>
    refine ⟨by simp [providerRegistry.Add, h], ?_, by simp⟩
    intro _
    simp [providerRegistry.Add, h]

/-- Witness of C2: a duplicate and a fresh registration. -/
theorem registry_add_witness :
    (exRegistry.Add "sensor" exFactory).registry = exRegistry ∧
    (exEmpty.Add "go" exFactory).registry.Get "go" = .ok exFactory :=
  ⟨(registry_add exRegistry "sensor" exFactory).2.1 (by decide),
   ((registry_add exEmpty "go" exFactory).2.2 rfl).2.1⟩

/-- C3: when `Source` is registered and its factory returns `(backend, e)`,
each of the eight resolvers (the string getter for a `Source` other than
"combined" and "openwb") returns `e` as its error when `e` is non-nil; with a
nil `e` it returns the backend's non-nil accessor and a nil error when the
backend has the capability, and a nil accessor with "invalid plugin source:
<Source>" when it has not. In particular a backend with `IntGetter` and without
`FloatGetter` resolves as an int getter and fails as a float getter. -/
theorem capability_gating {σ : Type} (g : Globals σ) (param : String) (config : Config)
    (factory : Factory σ) (backend : Option (Provider σ)) (e : Option Error)
    (hreg : g.registry.m config.Source = some factory)
    (hfac : factory config.Other = (backend, e)) :
    CapabilityGated config.Source (backend.bind (fun b => b.IntGetter)) e
      (NewIntGetterFromConfig g config) ∧
    CapabilityGated config.Source (backend.bind (fun b => b.FloatGetter)) e
      (NewFloatGetterFromConfig g config) ∧
    CapabilityGated config.Source (backend.bind (fun b => b.BoolGetter)) e
      (NewBoolGetterFromConfig g config) ∧
    CapabilityGated config.Source ((backend.bind (fun b => b.IntSetter)).map (fun mk => mk param)) e
      (NewIntSetterFromConfig g param config) ∧
    CapabilityGated config.Source ((backend.bind (fun b => b.FloatSetter)).map (fun mk => mk param))
      e (NewFloatSetterFromConfig g param config) ∧
    CapabilityGated config.Source
      ((backend.bind (fun b => b.StringSetter)).map (fun mk => mk param)) e
      (NewStringSetterFromConfig g param config) ∧
    CapabilityGated config.Source ((backend.bind (fun b => b.BoolSetter)).map (fun mk => mk param))
      e (NewBoolSetterFromConfig g param config) ∧
    (config.Source ≠ "combined" → config.Source ≠ "openwb" →
      CapabilityGated config.Source (backend.bind (fun b => b.StringGetter)) e
        (NewStringGetterFromConfig g config)) ∧
    (e = none → ∀ b acc, backend = some b → b.IntGetter = some (some acc) →
      b.FloatGetter = none →
      NewIntGetterFromConfig g config = (some acc, none) ∧
      NewFloatGetterFromConfig g config
        = (none, some (.errorf ("invalid plugin source: " ++ config.Source)))) := by
  have hg := Get_of_key g.registry config.Source factory hreg
  have hI : CapabilityGated config.Source (backend.bind (fun b => b.IntGetter)) e
      (NewIntGetterFromConfig g config) := by
    have := finish_gated config.Source (backend.bind (fun b => b.IntGetter)) e
    cases hb : backend.bind (fun b => b.IntGetter) <;>
      simpa [NewIntGetterFromConfig, hg, hfac, hb] using this
  have hF : CapabilityGated config.Source (backend.bind (fun b => b.FloatGetter)) e
      (NewFloatGetterFromConfig g config) := by
    have := finish_gated config.Source (backend.bind (fun b => b.FloatGetter)) e
    cases hb : backend.bind (fun b => b.FloatGetter) <;>
      simpa [NewFloatGetterFromConfig, hg, hfac, hb] using this
  refine ⟨hI, hF, ?_, ?_, ?_, ?_, ?_, ?_, ?_⟩
  · have := finish_gated config.Source (backend.bind (fun b => b.BoolGetter)) e
    cases hb : backend.bind (fun b => b.BoolGetter) <;>
      simpa [NewBoolGetterFromConfig, hg, hfac, hb] using this
  · have := finish_gated config.Source
      ((backend.bind (fun b => b.IntSetter)).map (fun mk => mk param)) e
    cases hb : backend.bind (fun b => b.IntSetter) <;>
      simpa [NewIntSetterFromConfig, hg, hfac, hb] using this
  · have := finish_gated config.Source
      ((backend.bind (fun b => b.FloatSetter)).map (fun mk => mk param)) e
    cases hb : backend.bind (fun b => b.FloatSetter) <;>
      simpa [NewFloatSetterFromConfig, hg, hfac, hb] using this
  · have := finish_gated config.Source
      ((backend.bind (fun b => b.StringSetter)).map (fun mk => mk param)) e
    cases hb : backend.bind (fun b => b.StringSetter) <;>
      simpa [NewStringSetterFromConfig, hg, hfac, hb] using this
  · have := finish_gated config.Source
      ((backend.bind (fun b => b.BoolSetter)).map (fun mk => mk param)) e
    cases hb : backend.bind (fun b => b.BoolSetter) <;>
      simpa [NewBoolSetterFromConfig, hg, hfac, hb] using this
  · intro h1 h2
    have := finish_gated config.Source (backend.bind (fun b => b.StringGetter)) e
    cases hb : backend.bind (fun b => b.StringGetter) <;>
      simpa [NewStringGetterFromConfig, h1, h2, hg, hfac, hb] using this
  · intro he b acc hb hi hf
    subst hb
    exact ⟨hI.2.1 he acc (by simp [hi]), hF.2.2 he (by simp [hf])⟩

/-- Witness of C3: the backend "intonly" of the example registry. -/
theorem capability_gating_witness :
    (NewIntGetterFromConfig exGlobals ⟨"intonly", []⟩).2 = none ∧
    NewFloatGetterFromConfig exGlobals ⟨"intonly", []⟩
      = (none, some (.errorf "invalid plugin source: intonly")) :=
  have h := (capability_gating exGlobals "p" ⟨"intonly", []⟩ (fun _ => (some exIntOnly, none))
    (some exIntOnly) none rfl rfl).2.2.2.2.2.2.2.2 rfl exIntOnly
    (fun s => ((1, none), s)) rfl rfl rfl
  ⟨congrArg Prod.snd h.1, h.2⟩

/-! ## Script-backed getters: errors (C4, C10) -/

/-- Ranging over a nil read list does nothing, so the guard `p.read != nil` of
the Go getters does not change what they do. -/
theorem transformGetterGo_nil {σ : Type} (g : Globals σ) (rt : Runtime) (p : Go σ) (s : σ)
    (h : p.read = none) : transformGetterGo g rt p s = (none, s) := by
  simp [transformGetterGo, h, transformGetterGo.loop]

/-- The read prologue of the Go getters, rewritten from a successful pipeline. -/
theorem go_read_guard {σ : Type} (g : Globals σ) (rt : Runtime) (p : Go σ) (s s1 : σ)
    (hread : transformGetterGo g rt p s = (none, s1)) :
    (match p.read with
      | some _ => transformGetterGo g rt p s
      | none => (none, s)) = (none, s1) := by
  cases hr : p.read with
  | none =>
    rw [transformGetterGo_nil g rt p s hr] at hread
    simpa using hread
  | some l => simpa using hread

/-- The Go getters hand over the error of a failed evaluation. -/
theorem go_getter_eval_error {σ : Type} (g : Globals σ) (rt : Runtime) (p : Go σ) (s s1 s2 : σ)
    (e : Error) (hread : transformGetterGo g rt p s = (none, s1))
    (heval : p.vm.Eval p.script s1 = (.error e, s2)) :
    Go.FloatGetter g rt p s = ((Float64.zero, some e), s2) ∧
    Go.IntGetter g rt p s = ((0, some e), s2) ∧
    Go.StringGetter g rt p s = (("", some e), s2) ∧
    Go.BoolGetter g rt p s = ((false, some e), s2) := by
  have hg := go_read_guard g rt p s s1 hread
  refine ⟨?_, ?_, ?_, ?_⟩
  · simp only [Go.FloatGetter, hg, heval]
  · simp only [Go.IntGetter, hg, heval]
  · simp only [Go.StringGetter, hg, heval]
  · simp only [Go.BoolGetter, hg, heval]

/-- The Go getters report a failed coercion with the requested type and the
rendering of the raw value. -/
theorem go_getter_coercion_error {σ : Type} (g : Globals σ) (rt : Runtime) (p : Go σ)
    (s s1 s2 : σ) (v : reflect.Value) (hread : transformGetterGo g rt p s = (none, s1))
    (heval : p.vm.Eval p.script s1 = (.ok v, s2)) :
    (v.convertFloat rt = none →
      Go.FloatGetter g rt p s
        = ((Float64.zero, some (.errorf ("not a float: " ++ fmtValueV rt v))), s2)) ∧
    (v.convertInt rt = none →
      Go.IntGetter g rt p s = ((0, some (.errorf ("not an int: " ++ fmtValueV rt v))), s2)) ∧
    (v.convertString = none →
      Go.StringGetter g rt p s
        = (("", some (.errorf ("not a string: " ++ fmtValueV rt v))), s2)) ∧
    (v.convertBool = none →
      Go.BoolGetter g rt p s
        = ((false, some (.errorf ("not a boolean: " ++ fmtValueV rt v))), s2)) := by
  have hg := go_read_guard g rt p s s1 hread
  refine ⟨?_, ?_, ?_, ?_⟩
  · intro hc
    simp only [Go.FloatGetter, hg, heval, hc]
  · intro hc
    simp only [Go.IntGetter, hg, heval, hc]
  · intro hc
    simp only [Go.StringGetter, hg, heval, hc]
  · intro hc
    simp only [Go.BoolGetter, hg, heval, hc]

/-- The Go getters succeed with the converted value when the coercion works. -/
theorem go_getter_success {σ : Type} (g : Globals σ) (rt : Runtime) (p : Go σ)
    (s s1 s2 : σ) (v : reflect.Value) (hread : transformGetterGo g rt p s = (none, s1))
    (heval : p.vm.Eval p.script s1 = (.ok v, s2)) :
    (∀ r, v.convertFloat rt = some r → Go.FloatGetter g rt p s = ((r, none), s2)) ∧
    (∀ r, v.convertInt rt = some r → Go.IntGetter g rt p s = ((r, none), s2)) ∧
    (∀ r, v.convertString = some r → Go.StringGetter g rt p s = ((r, none), s2)) ∧
    (∀ r, v.convertBool = some r → Go.BoolGetter g rt p s = ((r, none), s2)) := by
  have hg := go_read_guard g rt p s s1 hread
  refine ⟨?_, ?_, ?_, ?_⟩
  · intro r hc
    simp only [Go.FloatGetter, hg, heval, hc]
  · intro r hc
    simp only [Go.IntGetter, hg, heval, hc]
  · intro r hc
    simp only [Go.StringGetter, hg, heval, hc]
  · intro r hc
    simp only [Go.BoolGetter, hg, heval, hc]

/-- The error of a Javascript getter is the error of `getTransformed`, whatever
the evaluation and the conversion do. -/
theorem js_getter_error {σ : Type} (g : Globals σ) (p : Javascript σ) (s : σ) :
    (Javascript.FloatGetter g p s).1.2 = (getTransformed g p s).1 ∧
    (Javascript.IntGetter g p s).1.2 = (getTransformed g p s).1 ∧
    (Javascript.StringGetter g p s).1.2 = (getTransformed g p s).1 ∧
    (Javascript.BoolGetter g p s).1.2 = (getTransformed g p s).1 := by
  rcases h : getTransformed g p s with ⟨_ | e, s1⟩
  · rcases h2 : p.vm.Eval p.script s1 with ⟨_ | v, s2⟩ <;>
      simp [Javascript.FloatGetter, Javascript.IntGetter, Javascript.StringGetter,
        Javascript.BoolGetter, h, h2]
  · simp [Javascript.FloatGetter, Javascript.IntGetter, Javascript.StringGetter,
      Javascript.BoolGetter, h]

/-- C4 (the code at the failing input): a Javascript provider without
transformations whose program fails to evaluate. Each of its four getters
returns the zero value and a nil error instead of the error of the engine; and
when the program yields a value whose conversion fails, the float getter returns
a nil error as well. -/
theorem js_getter_swallows_errors :
    exOtto.Eval "boom" [] = (.error (.errorf "boom: eval failed"), [.eval "boom"]) ∧
    Javascript.FloatGetter exGlobals exJsBoom [] = ((Float64.zero, none), [.eval "boom"]) ∧
    Javascript.IntGetter exGlobals exJsBoom [] = ((0, none), [.eval "boom"]) ∧
    Javascript.StringGetter exGlobals exJsBoom [] = (("", none), [.eval "boom"]) ∧
    Javascript.BoolGetter exGlobals exJsBoom [] = ((false, none), [.eval "boom"]) ∧
    exJsObject.ToFloat = (⟨0⟩, some (.errorf "TypeError")) ∧
    Javascript.FloatGetter exGlobals exJsObj [] = ((⟨0⟩, none), [.eval "obj"]) := by
  refine ⟨rfl, rfl, rfl, rfl, rfl, rfl, rfl⟩

/-- C10 (as amended): when the read pipeline and the evaluation succeed, the
Javascript string getter returns a nil error whatever the value is; the Go
string getter returns a nil error for a string and for an integer (which becomes
the text of that code point), and the error "not a string: <value>" for a
boolean and for a float. -/
theorem string_getter_outcome {σ : Type} (g : Globals σ) :
    (∀ (p : Javascript σ) (s s1 s2 : σ) (v : otto.Value),
      getTransformed g p s = (none, s1) → p.vm.Eval p.script s1 = (.ok v, s2) →
      Javascript.StringGetter g p s = ((v.ToString.1, none), s2)) ∧
    (∀ (rt : Runtime) (p : Go σ) (s s1 s2 : σ) (v : reflect.Value),
      transformGetterGo g rt p s = (none, s1) → p.vm.Eval p.script s1 = (.ok v, s2) →
      (∀ x, v = .string x → Go.StringGetter g rt p s = ((x, none), s2)) ∧
      (∀ i, v = .int i → Go.StringGetter g rt p s = ((cvtIntString i, none), s2)) ∧
      (∀ b, v = .bool b →
        Go.StringGetter g rt p s
          = (("", some (.errorf ("not a string: " ++ fmtV rt (.bool b)))), s2)) ∧
      (∀ f, v = .float64 f →
        Go.StringGetter g rt p s
          = (("", some (.errorf ("not a string: " ++ rt.fmtFloat f))), s2))) := by
  refine ⟨?_, ?_⟩
  · intro p s s1 s2 v hread heval
    simp only [Javascript.StringGetter, hread, heval]
  · intro rt p s s1 s2 v hread heval
    have hok := (go_getter_success g rt p s s1 s2 v hread heval).2.2.1
    have hko := (go_getter_coercion_error g rt p s s1 s2 v hread heval).2.2.1
    refine ⟨?_, ?_, ?_, ?_⟩
    · intro x hv
      subst hv
      exact hok x rfl
    · intro i hv
      subst hv
      exact hok _ rfl
    · intro b hv
      subst hv
      exact hko rfl
    · intro f hv
      subst hv
      exact hko rfl

/-- Witness of C10 (as amended): the Go provider whose program yields `true`. -/
theorem string_getter_outcome_witness :
    Go.StringGetter exGlobals exRuntime exGoTrue []
      = (("", some (.errorf "not a string: true")), [.eval "true"]) :=
  ((string_getter_outcome exGlobals).2 exRuntime exGoTrue [] [] [.eval "true"] (.bool true)
    rfl rfl).2.2.1 true rfl

/-- C10 (as stated) fails: the pipeline (empty) and the evaluation succeed, the
value is the boolean `true`, and the Go string getter returns the error
"not a string: true". -/
theorem string_getter_counterexample :
    transformGetterGo exGlobals exRuntime exGoTrue [] = (none, []) ∧
    exGoTrue.vm.Eval exGoTrue.script [] = (.ok (.bool true), [.eval "true"]) ∧
    (Go.StringGetter exGlobals exRuntime exGoTrue []).1.2
      = some (.errorf "not a string: true") := by
  refine ⟨rfl, rfl, rfl⟩

/-! ## Read transformations: wrapped errors (C6) -/

/-- Transformations after a successful run of the earlier ones start from the
state those left. -/
theorem transformGetterGo_loop_append {σ : Type} (g : Globals σ) (rt : Runtime) (p : Go σ)
    (pre rest : List TransformationConfig) (s s1 : σ)
    (h : transformGetterGo.loop g rt p pre s = (none, s1)) :
    transformGetterGo.loop g rt p (pre ++ rest) s = transformGetterGo.loop g rt p rest s1 := by
  induction pre generalizing s with
  | nil =>
    simp only [transformGetterGo.loop, Prod.mk.injEq, true_and] at h
    subst h
    rfl
  | cons cc pre ih =>
    simp only [List.cons_append, transformGetterGo.loop] at h ⊢
    rcases hf : transformGetterGo.fetch g cc s with ⟨_ | val, s2⟩
    · simp [hf] at h
    · simp only [hf] at h ⊢
      rcases hp : Go.paramAndEval g rt p cc.Name val s2 with ⟨_ | e, s3⟩
      · simp only [hp] at h ⊢
        exact ih s3 h
      · simp [hp] at h

/-- In the Go read pipeline a failure to resolve the getter of the declared
type, or a failure of that getter when it is invoked, is returned wrapped with
the name of the transformation. -/
theorem go_fetch_error_wrapped {σ : Type} (g : Globals σ) (cc : TransformationConfig) (s : σ)
    (e : Error) :
    (cc.Typ = "bool" →
      ((NewBoolGetterFromConfig g cc.Config).2 = some e →
        transformGetterGo.fetch g cc s = (.error (.wrap cc.Name e), s)) ∧
      (∀ f r s1, NewBoolGetterFromConfig g cc.Config = (some f, none) →
        f s = ((r, some e), s1) →
        transformGetterGo.fetch g cc s = (.error (.wrap cc.Name e), s1))) ∧
    (cc.Typ = "int" →
      ((NewIntGetterFromConfig g cc.Config).2 = some e →
        transformGetterGo.fetch g cc s = (.error (.wrap cc.Name e), s)) ∧
      (∀ f r s1, NewIntGetterFromConfig g cc.Config = (some f, none) →
        f s = ((r, some e), s1) →
        transformGetterGo.fetch g cc s = (.error (.wrap cc.Name e), s1))) ∧
    (cc.Typ = "float" →
      ((NewFloatGetterFromConfig g cc.Config).2 = some e →
        transformGetterGo.fetch g cc s = (.error (.wrap cc.Name e), s)) ∧
      (∀ f r s1, NewFloatGetterFromConfig g cc.Config = (some f, none) →
        f s = ((r, some e), s1) →
        transformGetterGo.fetch g cc s = (.error (.wrap cc.Name e), s1))) ∧
    (cc.Typ ≠ "bool" → cc.Typ ≠ "int" → cc.Typ ≠ "float" →
      ((NewStringGetterFromConfig g cc.Config).2 = some e →
        transformGetterGo.fetch g cc s = (.error (.wrap cc.Name e), s)) ∧
      (∀ f r s1, NewStringGetterFromConfig g cc.Config = (some f, none) →
        f s = ((r, some e), s1) →
        transformGetterGo.fetch g cc s = (.error (.wrap cc.Name e), s1))) := by
  refine ⟨?_, ?_, ?_, ?_⟩
  · intro hty
    refine ⟨?_, ?_⟩
    · intro h
      rcases hr : NewBoolGetterFromConfig g cc.Config with ⟨f, err⟩
      rw [hr] at h
      simp only at h
      subst h
      simp [transformGetterGo.fetch, hty, hr]
    · intro f r s1 hr hf
      simp [transformGetterGo.fetch, hty, hr, hf]
  · intro hty
    refine ⟨?_, ?_⟩
    · intro h
      rcases hr : NewIntGetterFromConfig g cc.Config with ⟨f, err⟩
      rw [hr] at h
      simp only at h
      subst h
      simp [transformGetterGo.fetch, hty, hr]
    · intro f r s1 hr hf
      simp [transformGetterGo.fetch, hty, hr, hf]
  · intro hty
    refine ⟨?_, ?_⟩
    · intro h
      rcases hr : NewFloatGetterFromConfig g cc.Config with ⟨f, err⟩
      rw [hr] at h
      simp only at h
      subst h
      simp [transformGetterGo.fetch, hty, hr]
    · intro f r s1 hr hf
      simp [transformGetterGo.fetch, hty, hr, hf]
  · intro h1 h2 h3
    refine ⟨?_, ?_⟩
    · intro h
      rcases hr : NewStringGetterFromConfig g cc.Config with ⟨f, err⟩
      rw [hr] at h
      simp only at h
      subst h
      simp [transformGetterGo.fetch, h1, h2, h3, hr]
    · intro f r s1 hr hf
      simp [transformGetterGo.fetch, h1, h2, h3, hr, hf]

/-- In the Go engine, when the transformations before `cc` succeeded and the
fetch of `cc` fails with `err`, the whole read fails with `err` and the program
is not evaluated again: every getter returns its zero value and `err`. -/
theorem go_read_failure {σ : Type} (g : Globals σ) (rt : Runtime) (p : Go σ)
    (pre rest : List TransformationConfig) (cc : TransformationConfig) (s s1 s2 : σ)
    (err : Error) (hp : p.read = some (pre ++ cc :: rest))
    (hpre : transformGetterGo.loop g rt p pre s = (none, s1))
    (hfetch : transformGetterGo.fetch g cc s1 = (.error err, s2)) :
    Go.FloatGetter g rt p s = ((Float64.zero, some err), s2) ∧
    Go.IntGetter g rt p s = ((0, some err), s2) ∧
    Go.StringGetter g rt p s = (("", some err), s2) ∧
    Go.BoolGetter g rt p s = ((false, some err), s2) := by
  have h : transformGetterGo g rt p s = (some err, s2) := by
    simp only [transformGetterGo, hp, Option.getD_some]
    rw [transformGetterGo_loop_append g rt p pre (cc :: rest) s s1 hpre]
    simp only [transformGetterGo.loop, hfetch]
  refine ⟨?_, ?_, ?_, ?_⟩
  · simp only [Go.FloatGetter, hp, h]
  · simp only [Go.IntGetter, hp, h]
  · simp only [Go.StringGetter, hp, h]
  · simp only [Go.BoolGetter, hp, h]

/-- The Go engine at the input of C6: the getter of the one read-transformation
"a" fails with "timeout" when invoked, and the read fails with "a: timeout". -/
theorem go_read_invocation_error_example :
    Go.StringGetter exGlobals exRuntime exGoGetBroken []
      = (("", some (.wrap "a" (.errorf "timeout"))), [.fetch "broken"]) ∧
    (Error.wrap "a" (.errorf "timeout")).Error = "a: timeout" := by
  refine ⟨rfl, by decide⟩

/-- C6 (the code at the failing input): a Javascript provider with one `get`
entry whose string getter resolves and fails with "timeout" when it is invoked.
`getTransformed` returns a nil error, the empty string is bound to `get_0`, the
program is evaluated and its result is returned with a nil error. -/
theorem js_read_invocation_error_swallowed :
    (∃ f, NewStringGetterFromConfig exGlobals ⟨"broken", []⟩ = (some f, none) ∧
      f [] = (("", some (.errorf "timeout")), [.fetch "broken"])) ∧
    getTransformed exGlobals exJsGetBroken []
      = (none, [.fetch "broken", .bind "get_0" (.string "")]) ∧
    Javascript.StringGetter exGlobals exJsGetBroken []
      = (("hello", none),
         [.fetch "broken", .bind "get_0" (.string ""), .eval "hello"]) := by
  refine ⟨⟨_, rfl, rfl⟩, rfl, rfl⟩

/-! ## Script-backed setters: errors (C5) -/

/-- A Javascript setter returns a nil error as soon as the three bindings
succeeded, whatever the evaluation and the sink do. -/
theorem js_setter_error {σ : Type} (g : Globals σ) (p : Javascript σ) (param : String)
    (val : Any) (s s1 s2 s3 : σ) (h1 : p.vm.Set param val s = (none, s1))
    (h2 : p.vm.Set "param" (.string param) s1 = (none, s2))
    (h3 : p.vm.Set "val" val s2 = (none, s3)) :
    (Javascript.paramAndEval g p param val s).1 = none := by
  simp only [Javascript.paramAndEval, h1, h2, h3]
  rcases he : p.vm.Eval p.script s3 with ⟨_ | v, s4⟩
  · simp
  · cases hs : p.set <;> simp

/-- A Go setter hands over the error of a failed evaluation of the program. -/
theorem go_setter_eval_error {σ : Type} (g : Globals σ) (rt : Runtime) (p : Go σ)
    (param : String) (val : Any) (s s1 s2 s3 s4 : σ) (v1 v2 v3 : reflect.Value) (e : Error)
    (h1 : p.vm.Eval (param ++ " := " ++ fmtV rt val ++ ";") s = (.ok v1, s1))
    (h2 : p.vm.Eval ("param := " ++ param ++ ";") s1 = (.ok v2, s2))
    (h3 : p.vm.Eval ("val := " ++ fmtV rt val ++ ";") s2 = (.ok v3, s3))
    (h4 : p.vm.Eval p.script s3 = (.error e, s4)) :
    Go.paramAndEval g rt p param val s = (some e, s4) := by
  simp only [Go.paramAndEval, h1, h2, h3, h4]

/-- A Go setter hands over the result of the write pipeline. -/
theorem go_setter_write {σ : Type} (g : Globals σ) (rt : Runtime) (p : Go σ)
    (param : String) (val : Any) (s s1 s2 s3 s4 : σ) (v1 v2 v3 v : reflect.Value)
    (write : List TransformationConfig) (hw : p.write = some write)
    (h1 : p.vm.Eval (param ++ " := " ++ fmtV rt val ++ ";") s = (.ok v1, s1))
    (h2 : p.vm.Eval ("param := " ++ param ++ ";") s1 = (.ok v2, s2))
    (h3 : p.vm.Eval ("val := " ++ fmtV rt val ++ ";") s2 = (.ok v3, s3))
    (h4 : p.vm.Eval p.script s3 = (.ok v, s4)) :
    Go.paramAndEval g rt p param val s = transformSetterGo g rt write v s4 := by
  simp only [Go.paramAndEval, h1, h2, h3, h4, hw]

/-- C5 (the code at the failing input): Javascript setters whose bindings
succeed. With a program that fails to evaluate the setter returns nil; with a
`set` whose source is not registered (the bool setter does not resolve) it
returns nil; with a sink whose bool setter fails with "write refused" it
returns nil. -/
theorem js_setter_swallows_errors :
    Javascript.IntSetter exGlobals exJsBoom "p" 5 []
      = (none, [.bind "p" (.int64 5), .bind "param" (.string "p"), .bind "val" (.int64 5),
          .eval "boom"]) ∧
    NewBoolSetterFromConfig exGlobals "p" ⟨"nosuch", []⟩
      = (none, some (.errorf "invalid plugin source: nosuch")) ∧
    Javascript.IntSetter exGlobals exJsSetUnknown "p" 5 []
      = (none, [.bind "p" (.int64 5), .bind "param" (.string "p"), .bind "val" (.int64 5),
          .eval "true"]) ∧
    (∃ f, NewBoolSetterFromConfig exGlobals "p" ⟨"brokensink", []⟩ = (some f, none) ∧
      (f true []).1 = some (.errorf "write refused")) ∧
    Javascript.IntSetter exGlobals exJsSetRefused "p" 5 []
      = (none, [.bind "p" (.int64 5), .bind "param" (.string "p"), .bind "val" (.int64 5),
          .eval "true", .sink "bool" "p" (.bool true)]) := by
  refine ⟨rfl, rfl, rfl, ⟨_, rfl, rfl⟩, rfl⟩

/-! ## Order of engine operations and reads that write (C7, C8) -/

/-- C7 (the code at the failing input): a Go int getter with the two
read-transformations "a" and "b". The program "7" is evaluated after the
binding of "a", before "b" is fetched, again after the binding of "b", and a
third time by the getter itself: three evaluations in one successful call. -/
theorem go_getter_reevaluates_program :
    Go.IntGetter exGlobals exRuntime exGoTwoReads []
      = ((7, none),
         [.fetch "sensor", .eval "a := 42;", .eval "param := a;", .eval "val := 42;",
          .eval "7",
          .fetch "sensor", .eval "b := on;", .eval "param := b;", .eval "val := on;",
          .eval "7",
          .eval "7"]) ∧
    List.count (Event.eval "7") (Go.IntGetter exGlobals exRuntime exGoTwoReads []).2 = 3 := by
  refine ⟨rfl, by decide⟩

/-- The Javascript engine on two `get` entries: both values are fetched and
bound, then the program is evaluated once; no sink is written although `set` is
configured. -/
theorem js_getter_evaluates_once :
    Javascript.StringGetter exGlobals exJsTwoReads []
      = (("hello", none),
         [.fetch "sensor", .bind "get_0" (.string "on"),
          .fetch "sensor", .bind "get_1" (.string "on"),
          .eval "hello"]) := rfl

/-- C8 (the code at the failing input): a Go int getter with one
read-transformation and a write list naming the recording sink. The read
invokes the int setter of the sink with 7: the state of the sink changes. -/
theorem go_getter_writes_sink :
    Go.IntGetter exGlobals exRuntime exGoReadWrite []
      = ((7, none),
         [.fetch "sensor", .eval "a := 42;", .eval "param := a;", .eval "val := 42;",
          .eval "7", .sink "int" "x" (.int64 7), .eval "7"]) ∧
    Event.sink "int" "x" (.int64 7) ∈ (Go.IntGetter exGlobals exRuntime exGoReadWrite []).2 := by
  refine ⟨rfl, by decide⟩

/-! ## The write path: which setter, which value (C9) -/

/-- The four setter resolvers on a registered backend that has the capability
and returns a non-nil setter for `param`. -/
theorem resolve_setters {σ : Type} (g : Globals σ) (param : String) (cfg : Config)
    (factory : Factory σ) (backend : Provider σ)
    (hreg : g.registry.m cfg.Source = some factory)
    (hfac : factory cfg.Other = (some backend, none)) :
    (∀ mk f, backend.BoolSetter = some mk → mk param = some f →
      NewBoolSetterFromConfig g param cfg = (some f, none)) ∧
    (∀ mk f, backend.IntSetter = some mk → mk param = some f →
      NewIntSetterFromConfig g param cfg = (some f, none)) ∧
    (∀ mk f, backend.FloatSetter = some mk → mk param = some f →
      NewFloatSetterFromConfig g param cfg = (some f, none)) ∧
    (∀ mk f, backend.StringSetter = some mk → mk param = some f →
      NewStringSetterFromConfig g param cfg = (some f, none)) := by
  have hg := Get_of_key g.registry cfg.Source factory hreg
  refine ⟨?_, ?_, ?_, ?_⟩
  · intro mk f hmk hf
    simp [NewBoolSetterFromConfig, hg, hfac, hmk, hf, finish_some]
  · intro mk f hmk hf
    simp [NewIntSetterFromConfig, hg, hfac, hmk, hf, finish_some]
  · intro mk f hmk hf
    simp [NewFloatSetterFromConfig, hg, hfac, hmk, hf, finish_some]
  · intro mk f hmk hf
    simp [NewStringSetterFromConfig, hg, hfac, hmk, hf, finish_some]

/-- Write-transformations after a successful run of the earlier ones start from
the state those left, on the same result value. -/
theorem transformSetterGo_append {σ : Type} (g : Globals σ) (rt : Runtime)
    (pre rest : List TransformationConfig) (v : reflect.Value) (s s1 : σ)
    (h : transformSetterGo g rt pre v s = (none, s1)) :
    transformSetterGo g rt (pre ++ rest) v s = transformSetterGo g rt rest v s1 := by
  induction pre generalizing s with
  | nil =>
    simp only [transformSetterGo, Prod.mk.injEq, true_and] at h
    subst h
    rfl
  | cons cc pre ih =>
    simp only [List.cons_append, transformSetterGo] at h ⊢
    by_cases h1 : cc.Typ = "bool"
    · rcases hr : NewBoolSetterFromConfig g cc.Name cc.Config with ⟨_ | f, _ | e⟩
      · simp [h1, hr] at h
      · simp [h1, hr] at h
      · cases hv : v.convertBool with
        | none => simp [h1, hr, hv] at h
        | some x =>
          rcases hf : f x s with ⟨_ | e, s2⟩
          · simp only [h1, hr, hv, hf, if_true] at h ⊢
            exact ih s2 h
          · simp [h1, hr, hv, hf] at h
      · simp [h1, hr] at h
    · by_cases h2 : cc.Typ = "int"
      · rcases hr : NewIntSetterFromConfig g cc.Name cc.Config with ⟨_ | f, _ | e⟩
        · simp [h1, h2, hr] at h
        · simp [h1, h2, hr] at h
        · cases hv : v.convertInt rt with
          | none => simp [h1, h2, hr, hv] at h
          | some x =>
            rcases hf : f x s with ⟨_ | e, s2⟩
            · simp only [h1, h2, hr, hv, hf, if_true, if_false] at h ⊢
              exact ih s2 h
            · simp [h1, h2, hr, hv, hf] at h
        · simp [h1, h2, hr] at h
      · by_cases h3 : cc.Typ = "float"
        · rcases hr : NewFloatSetterFromConfig g cc.Name cc.Config with ⟨_ | f, _ | e⟩
          · simp [h1, h2, h3, hr] at h
          · simp [h1, h2, h3, hr] at h
          · cases hv : v.convertFloat rt with
            | none => simp [h1, h2, h3, hr, hv] at h
            | some x =>
              rcases hf : f x s with ⟨_ | e, s2⟩
              · simp only [h1, h2, h3, hr, hv, hf, if_true, if_false] at h ⊢
                exact ih s2 h
              · simp [h1, h2, h3, hr, hv, hf] at h
          · simp [h1, h2, h3, hr] at h
        · rcases hr : NewStringSetterFromConfig g cc.Name cc.Config with ⟨_ | f, _ | e⟩
          · simp [h1, h2, h3, hr] at h
          · simp [h1, h2, h3, hr] at h
          · cases hv : v.convertString with
            | none => simp [h1, h2, h3, hr, hv] at h
            | some x =>
              rcases hf : f x s with ⟨_ | e, s2⟩
              · simp only [h1, h2, h3, hr, hv, hf, if_false] at h ⊢
                exact ih s2 h
              · simp [h1, h2, h3, hr, hv, hf] at h
          · simp [h1, h2, h3, hr] at h

/-- C9 (as amended).
Javascript engine, with `p.set` the one configured sink: `setTransformed`
chooses the setter by the runtime type of the result. A boolean goes to the bool
setter with `ToBoolean`, a number to the float setter with `ToFloat`, anything
else to the string setter with `ToString`; when that setter does not resolve or
the coercion fails, no setter is called (the state is unchanged).
Go engine: `transformSetterGo` goes through the write-transformations in
declared order and chooses the setter of each by its declared type ("bool",
"int", "float", otherwise string). For a transformation `cc` reached after all
earlier ones (`pre`) succeeded: when its setter does not resolve, the write
stops with that error wrapped with the name of `cc`; when the result does not
convert to the declared type, the write stops with "<name>: not a int: <value>"
and no setter is called; when its setter, given the result converted to the
declared type, returns an error, the write stops with that error wrapped with
the name; in these three cases the later transformations (`rest`) are not run.
When the setter succeeds the write goes on with `rest`, on the same result. An
empty list does nothing. -/
theorem write_dispatch {σ : Type} (g : Globals σ) :
    (∀ (param : String) (p : Javascript σ) (cfg : Config) (v : otto.Value) (s : σ),
      p.set = some cfg →
      (v.IsBoolean = true →
        (∀ f b, NewBoolSetterFromConfig g param cfg = (some f, none) →
          v.ToBoolean = (b, none) → setTransformed g param p v s = (f b s).2) ∧
        (∀ e, (NewBoolSetterFromConfig g param cfg).2 = some e →
          setTransformed g param p v s = s) ∧
        (∀ e, v.ToBoolean.2 = some e → setTransformed g param p v s = s)) ∧
      (v.IsBoolean = false → v.IsNumber = true →
        (∀ f x, NewFloatSetterFromConfig g param cfg = (some f, none) →
          v.ToFloat = (x, none) → setTransformed g param p v s = (f x s).2) ∧
        (∀ e, (NewFloatSetterFromConfig g param cfg).2 = some e →
          setTransformed g param p v s = s) ∧
        (∀ e, v.ToFloat.2 = some e → setTransformed g param p v s = s)) ∧
      (v.IsBoolean = false → v.IsNumber = false →
        (∀ f x, NewStringSetterFromConfig g param cfg = (some f, none) →
          v.ToString = (x, none) → setTransformed g param p v s = (f x s).2) ∧
        (∀ e, (NewStringSetterFromConfig g param cfg).2 = some e →
          setTransformed g param p v s = s) ∧
        (∀ e, v.ToString.2 = some e → setTransformed g param p v s = s))) ∧
    (∀ (rt : Runtime) (v : reflect.Value) (s : σ),
      transformSetterGo g rt [] v s = (none, s)) ∧
    (∀ (rt : Runtime) (pre rest : List TransformationConfig) (cc : TransformationConfig)
      (v : reflect.Value) (s0 s : σ), transformSetterGo g rt pre v s0 = (none, s) →
      (cc.Typ = "bool" →
        (∀ e, (NewBoolSetterFromConfig g cc.Name cc.Config).2 = some e →
          transformSetterGo g rt (pre ++ cc :: rest) v s0 = (some (.wrap cc.Name e), s)) ∧
        (∀ f, NewBoolSetterFromConfig g cc.Name cc.Config = (some f, none) →
          (v.convertBool = none →
            transformSetterGo g rt (pre ++ cc :: rest) v s0
              = (some (.wrap cc.Name (.errorf ("not a int: " ++ fmtValueS rt v))), s)) ∧
          (∀ x e s1, v.convertBool = some x → f x s = (some e, s1) →
            transformSetterGo g rt (pre ++ cc :: rest) v s0 = (some (.wrap cc.Name e), s1)) ∧
          (∀ x s1, v.convertBool = some x → f x s = (none, s1) →
            transformSetterGo g rt (pre ++ cc :: rest) v s0
              = transformSetterGo g rt rest v s1))) ∧
      (cc.Typ = "int" →
        (∀ e, (NewIntSetterFromConfig g cc.Name cc.Config).2 = some e →
          transformSetterGo g rt (pre ++ cc :: rest) v s0 = (some (.wrap cc.Name e), s)) ∧
        (∀ f, NewIntSetterFromConfig g cc.Name cc.Config = (some f, none) →
          (v.convertInt rt = none →
            transformSetterGo g rt (pre ++ cc :: rest) v s0
              = (some (.wrap cc.Name (.errorf ("not a int: " ++ fmtValueS rt v))), s)) ∧
          (∀ x e s1, v.convertInt rt = some x → f x s = (some e, s1) →
            transformSetterGo g rt (pre ++ cc :: rest) v s0 = (some (.wrap cc.Name e), s1)) ∧
          (∀ x s1, v.convertInt rt = some x → f x s = (none, s1) →
            transformSetterGo g rt (pre ++ cc :: rest) v s0
              = transformSetterGo g rt rest v s1))) ∧
      (cc.Typ = "float" →
        (∀ e, (NewFloatSetterFromConfig g cc.Name cc.Config).2 = some e →
          transformSetterGo g rt (pre ++ cc :: rest) v s0 = (some (.wrap cc.Name e), s)) ∧
        (∀ f, NewFloatSetterFromConfig g cc.Name cc.Config = (some f, none) →
          (v.convertFloat rt = none →
            transformSetterGo g rt (pre ++ cc :: rest) v s0
              = (some (.wrap cc.Name (.errorf ("not a int: " ++ fmtValueS rt v))), s)) ∧
          (∀ x e s1, v.convertFloat rt = some x → f x s = (some e, s1) →
            transformSetterGo g rt (pre ++ cc :: rest) v s0 = (some (.wrap cc.Name e), s1)) ∧
          (∀ x s1, v.convertFloat rt = some x → f x s = (none, s1) →
            transformSetterGo g rt (pre ++ cc :: rest) v s0
              = transformSetterGo g rt rest v s1))) ∧
      (cc.Typ ≠ "bool" → cc.Typ ≠ "int" → cc.Typ ≠ "float" →
        (∀ e, (NewStringSetterFromConfig g cc.Name cc.Config).2 = some e →
          transformSetterGo g rt (pre ++ cc :: rest) v s0 = (some (.wrap cc.Name e), s)) ∧
        (∀ f, NewStringSetterFromConfig g cc.Name cc.Config = (some f, none) →
          (v.convertString = none →
            transformSetterGo g rt (pre ++ cc :: rest) v s0
              = (some (.wrap cc.Name (.errorf ("not a int: " ++ fmtValueS rt v))), s)) ∧
          (∀ x e s1, v.convertString = some x → f x s = (some e, s1) →
            transformSetterGo g rt (pre ++ cc :: rest) v s0 = (some (.wrap cc.Name e), s1)) ∧
          (∀ x s1, v.convertString = some x → f x s = (none, s1) →
            transformSetterGo g rt (pre ++ cc :: rest) v s0
              = transformSetterGo g rt rest v s1)))) := by
  refine ⟨?_, ?_, ?_⟩
  · intro param p cfg v s hset
    refine ⟨?_, ?_, ?_⟩
    · intro hb
      refine ⟨?_, ?_, ?_⟩
      · intro f b hr hv
        simp [setTransformed, hset, hb, hr, hv]
      · intro e he
        rcases hr : NewBoolSetterFromConfig g param cfg with ⟨f, err⟩
        rw [hr] at he
        simp only at he
        subst he
        simp [setTransformed, hset, hb, hr]
      · intro e he
        rcases hv : v.ToBoolean with ⟨b, err⟩
        rw [hv] at he
        simp only at he
        subst he
        rcases hr : NewBoolSetterFromConfig g param cfg with ⟨_ | f, _ | e2⟩ <;>
          simp [setTransformed, hset, hb, hr, hv]
    · intro hb hn
      refine ⟨?_, ?_, ?_⟩
      · intro f x hr hv
        simp [setTransformed, hset, hb, hn, hr, hv]
      · intro e he
        rcases hr : NewFloatSetterFromConfig g param cfg with ⟨f, err⟩
        rw [hr] at he
        simp only at he
        subst he
        simp [setTransformed, hset, hb, hn, hr]
      · intro e he
        rcases hv : v.ToFloat with ⟨b, err⟩
        rw [hv] at he
        simp only at he
        subst he
        rcases hr : NewFloatSetterFromConfig g param cfg with ⟨_ | f, _ | e2⟩ <;>
          simp [setTransformed, hset, hb, hn, hr, hv]
    · intro hb hn
      refine ⟨?_, ?_, ?_⟩
      · intro f x hr hv
        simp [setTransformed, hset, hb, hn, hr, hv]
      · intro e he
        rcases hr : NewStringSetterFromConfig g param cfg with ⟨f, err⟩
        rw [hr] at he
        simp only at he
        subst he
        simp [setTransformed, hset, hb, hn, hr]
      · intro e he
        rcases hv : v.ToString with ⟨b, err⟩
        rw [hv] at he
        simp only at he
        subst he
        rcases hr : NewStringSetterFromConfig g param cfg with ⟨_ | f, _ | e2⟩ <;>
          simp [setTransformed, hset, hb, hn, hr, hv]
  · intro rt v s
    rfl
  · intro rt pre rest cc v s0 s hpre
    have happ := transformSetterGo_append g rt pre (cc :: rest) v s0 s hpre
    refine ⟨?_, ?_, ?_, ?_⟩
    · intro hty
      refine ⟨?_, ?_⟩
      · intro e he
        rcases hr : NewBoolSetterFromConfig g cc.Name cc.Config with ⟨f, err⟩
        rw [hr] at he
        simp only at he
        subst he
        rw [happ]
        simp [transformSetterGo, hty, hr]
      · intro f hr
        refine ⟨?_, ?_, ?_⟩
        · intro hv
          rw [happ]
          simp [transformSetterGo, hty, hr, hv]
        · intro x e s1 hv hf
          rw [happ]
          simp [transformSetterGo, hty, hr, hv, hf]
        · intro x s1 hv hf
          rw [happ]
          simp [transformSetterGo, hty, hr, hv, hf]
    · intro hty
      refine ⟨?_, ?_⟩
      · intro e he
        rcases hr : NewIntSetterFromConfig g cc.Name cc.Config with ⟨f, err⟩
        rw [hr] at he
        simp only at he
        subst he
        rw [happ]
        simp [transformSetterGo, hty, hr]
      · intro f hr
        refine ⟨?_, ?_, ?_⟩
        · intro hv
          rw [happ]
          simp [transformSetterGo, hty, hr, hv]
        · intro x e s1 hv hf
          rw [happ]
          simp [transformSetterGo, hty, hr, hv, hf]
        · intro x s1 hv hf
          rw [happ]
          simp [transformSetterGo, hty, hr, hv, hf]
    · intro hty
      refine ⟨?_, ?_⟩
      · intro e he
        rcases hr : NewFloatSetterFromConfig g cc.Name cc.Config with ⟨f, err⟩
        rw [hr] at he
        simp only at he
        subst he
        rw [happ]
        simp [transformSetterGo, hty, hr]
      · intro f hr
        refine ⟨?_, ?_, ?_⟩
        · intro hv
          rw [happ]
          simp [transformSetterGo, hty, hr, hv]
        · intro x e s1 hv hf
          rw [happ]
          simp [transformSetterGo, hty, hr, hv, hf]
        · intro x s1 hv hf
          rw [happ]
          simp [transformSetterGo, hty, hr, hv, hf]
    · intro h1 h2 h3
      refine ⟨?_, ?_⟩
      · intro e he
        rcases hr : NewStringSetterFromConfig g cc.Name cc.Config with ⟨f, err⟩
        rw [hr] at he
        simp only at he
        subst he
        rw [happ]
        simp [transformSetterGo, h1, h2, h3, hr]
      · intro f hr
        refine ⟨?_, ?_, ?_⟩
        · intro hv
          rw [happ]
          simp [transformSetterGo, h1, h2, h3, hr, hv]
        · intro x e s1 hv hf
          rw [happ]
          simp [transformSetterGo, h1, h2, h3, hr, hv, hf]
        · intro x s1 hv hf
          rw [happ]
          simp [transformSetterGo, h1, h2, h3, hr, hv, hf]

/-- Witness of C9 (as amended). Javascript: the result `true` goes to the bool
setter of the recording sink. Go, result 7 on the list x:int, y:bool, z:string:
"x" receives 7, the conversion for "y" fails and "z" is never written. Go, result
`true` on the list x:bool (a sink that refuses), y:string: the write stops at
"x" with "x: write refused" and "y" is never written. -/
theorem write_dispatch_witness :
    setTransformed exGlobals "p" exJsSetSink exJsTrue [] = [.sink "bool" "p" (.bool true)] ∧
    transformSetterGo exGlobals exRuntime exWriteThree (.int 7) []
      = (some (.wrap "y" (.errorf ("not a int: " ++ fmtValueS exRuntime (.int 7)))),
         [.sink "int" "x" (.int64 7)]) ∧
    transformSetterGo exGlobals exRuntime exWriteRefused (.bool true) []
      = (some (.wrap "x" (.errorf "write refused")), [.sink "bool" "x" (.bool true)]) :=
  ⟨((write_dispatch exGlobals).1 "p" exJsSetSink ⟨"sink", []⟩ exJsTrue [] rfl).1 rfl |>.1
      (fun val s => (none, s ++ [Event.sink "bool" "p" (Any.bool val)])) true rfl rfl,
   (((write_dispatch exGlobals).2.2 exRuntime [⟨"x", "int", ⟨"sink", []⟩⟩]
      [⟨"z", "string", ⟨"sink", []⟩⟩] ⟨"y", "bool", ⟨"sink", []⟩⟩ (.int 7) []
      [Event.sink "int" "x" (Any.int64 7)] rfl).1 rfl).2
      (fun val s => (none, s ++ [Event.sink "bool" "y" (Any.bool val)])) rfl |>.1 rfl,
   ((((write_dispatch exGlobals).2.2 exRuntime [] [⟨"y", "string", ⟨"sink", []⟩⟩]
      ⟨"x", "bool", ⟨"brokensink", []⟩⟩ (.bool true) [] [] rfl).1 rfl).2
      (fun val s =>
        (some (Error.errorf "write refused"), s ++ [Event.sink "bool" "x" (Any.bool val)]))
      rfl).2.1 true (Error.errorf "write refused") [Event.sink "bool" "x" (Any.bool true)]
      rfl rfl⟩

/-- C9 (as stated) fails: a Go setter whose program yields the number 7 and
whose write list has the transformations "x" of declared type "int" and "y" of
declared type "string". The int setter of the sink is called with 7 and the
string setter with the text of code point 7; the float setter is not called, and
the two transformations do not receive the same scalar. -/
theorem write_dispatch_counterexample :
    exGoWrite.vm.Eval exGoWrite.script [] = (.ok (.int 7), [.eval "7"]) ∧
    Go.IntSetter exGlobals exRuntime exGoWrite "p" 5 []
      = (none,
         [.eval "p := 5;", .eval "param := p;", .eval "val := 5;", .eval "7",
          .sink "int" "x" (.int64 7),
          .sink "string" "y" (.string (cvtIntString 7))]) ∧
    (∀ f, Event.sink "float" "x" (.float64 f)
      ∉ (Go.IntSetter exGlobals exRuntime exGoWrite "p" 5 []).2) := by
  refine ⟨rfl, rfl, ?_⟩
  intro f hmem
  have hlog : (Go.IntSetter exGlobals exRuntime exGoWrite "p" 5 []).2
      = [.eval "p := 5;", .eval "param := p;", .eval "val := 5;", .eval "7",
          .sink "int" "x" (.int64 7),
          .sink "string" "y" (.string (cvtIntString 7))] := rfl
  rw [hlog] at hmem
  simp at hmem

end provider
